import Mathlib

/-!
Verification of the PIX payment glue application (app.py, for4payments.py).

Shallow embedding conventions:
* Python strings are Lean `String`s; character-level operations go through
  `String.data` (a `List Char`).
* Python `dict` bundles with optional keys become structures of `Option` fields;
  a Python falsy string (absent key or empty string) is `none` or `some ""`.
* Python floats are modelled as exact rationals `ℚ` (the decimal literals in the
  code, 142.83 and 121.80, are treated as the exact values they denote).
* `requests` calls are modelled by an explicit outcome parameter: either a
  raised `RequestException` or a response with a status code and a body.
* `random` generators are modelled as functions of an explicit seed.
* Functions that can raise `ValueError` return `Except String α`, the string
  being the exception message.
-/

/-- Python `int()` applied to an exact rational: truncation toward zero. -/
def pyInt (q : ℚ) : ℤ :=
  if 0 ≤ q then ⌊q⌋ else ⌈q⌉

/-- Python 3 `round()` on an exact rational: round half to even. -/
def pyRound (q : ℚ) : ℤ :=
  let f : ℤ := ⌊q⌋
  let frac : ℚ := q - f
  if frac < 1/2 then f
  else if 1/2 < frac then f + 1
  else if f % 2 = 0 then f else f + 1

/-- Python truthiness test for an optional string: `None` and `''` are falsy. -/
def pyFalsy (o : Option String) : Bool :=
  o.getD "" = ""

/-- Python truthiness for an optional number: absent or zero is falsy. -/
def pyFalsyQ (o : Option ℚ) : Bool :=
  o.getD 0 = 0

/-- Python `a or b` where `a` is an optional string and `b` a string:
the first operand when it is truthy, otherwise the second. -/
def pyOrS (a : Option String) (b : String) : String :=
  match a with
  | some s => if s = "" then b else s
  | none => b

/-- Python `a or b` on two optional strings (`x.get(k) or y`):
falls through on `None` and on the empty string. -/
def pyOrOpt (a b : Option String) : Option String :=
  match a with
  | some s => if s = "" then b else some s
  | none => b

/-- `''.join(filter(str.isdigit, s))` / `re.sub(r'\D', '', s)`:
keep only the decimal digits of a string. -/
def digitsOnly (s : String) : String :=
  String.mk (s.data.filter Char.isDigit)

/-- `'@' in email`. -/
def containsAt (s : String) : Bool :=
  s.data.contains '@'

/-- A decimal digit character from a raw random draw (`random.choices(string.digits)`). -/
def randDigitChar (n : ℕ) : Char :=
  Char.ofNat (48 + n % 10)

/-- `For4PaymentsAPI._generate_random_phone` (for4payments.py lines 29-32):
`str(random.randint(11, 99))` followed by 8 random digit characters.
The seed `r` drives the DDD draw (`11 + r % 89` ranges over 11..99, written
out as its two decimal digits) and `ds` drives the 8 digit draws. -/
def generate_random_phone (r : ℕ) (ds : ℕ → ℕ) : String :=
  let ddd := 11 + r % 89
  String.mk ([Char.ofNat (48 + ddd / 10), Char.ofNat (48 + ddd % 10)]
    ++ (List.range 8).map fun i => randDigitChar (ds i))

/-- The customer bundle handed to `create_pix_payment` (`data` dict). -/
structure PaymentRequest where
  name : Option String
  email : Option String
  cpf : Option String
  phone : Option String
  amount : Option ℚ
deriving DecidableEq, Repr

/-- The vendor payload built by `create_pix_payment` (for4payments.py lines 59-72).
The single item of the `items` array is inlined as `item*` fields. -/
structure PaymentPayload where
  name : String
  email : String
  cpf : String
  phone : String
  paymentMethod : String
  amount : ℤ
  itemTitle : String
  itemQuantity : ℕ
  itemUnitPrice : ℤ
  itemTangible : Bool
deriving DecidableEq, Repr

/-- The nested `pix` object of a vendor response. -/
structure PixObj where
  code : Option String
  qrCode : Option String
deriving DecidableEq, Repr

/-- The fields `create_pix_payment` and its error path read from a parsed
vendor response dict; absent keys are `none`. -/
structure PurchaseBody where
  id : Option String
  transactionId : Option String
  pixCode : Option String
  pixQrCode : Option String
  pix : Option PixObj
  expiresAt : Option String
  expiration : Option String
  status : Option String
  message : Option String
  errorField : Option String
  errors : Option (List String)
deriving DecidableEq, Repr

/-- Outcome of `response.json()`: raises, parses to a non-dict, or parses
to a dict with the fields above. -/
inductive RespBody where
  | parseFail : RespBody
  | nonDict : RespBody
  | dict : PurchaseBody → RespBody
deriving DecidableEq, Repr

/-- Outcome of the outbound `requests.post`/`requests.get`:
a `RequestException`, or a response with a status code and a body. -/
inductive HttpOutcome where
  | exn : HttpOutcome
  | resp : ℕ → RespBody → HttpOutcome
deriving DecidableEq, Repr

/-- The canonical result dict returned by `create_pix_payment` on a 200
response (for4payments.py lines 94-100). -/
structure CreateResult where
  id : Option String
  pixCode : Option String
  pixQrCode : Option String
  expiresAt : Option String
  status : String
deriving DecidableEq, Repr

/-- Validation and payload construction of `create_pix_payment`
(for4payments.py lines 36-72), everything before the outbound call:
secret-key check, required-field loop (in the order name, email, cpf,
amount), amount-in-cents computation and positivity check, CPF digit
stripping and length check, email fallback, phone synthesis. -/
def validateAndBuild (secretKey : String) (data : PaymentRequest)
    (genEmail genPhone : String) : Except String PaymentPayload :=
  if secretKey = "" || secretKey.length < 10 then
    .error "Token de autenticação inválido"
  else if pyFalsy data.name then .error "Campo obrigatório ausente: name"
  else if pyFalsy data.email then .error "Campo obrigatório ausente: email"
  else if pyFalsy data.cpf then .error "Campo obrigatório ausente: cpf"
  else if pyFalsyQ data.amount then .error "Campo obrigatório ausente: amount"
  else
    let amount_in_cents : ℤ := pyInt (data.amount.getD 0 * 100)
    if amount_in_cents ≤ 0 then
      .error "Valor do pagamento deve ser maior que zero"
    else
      let cpf := digitsOnly (data.cpf.getD "")
      if cpf.length ≠ 11 then .error "CPF inválido"
      else
        let email :=
          match data.email with
          | some e => if e = "" || !containsAt e then genEmail else e
          | none => genEmail
        .ok { name := data.name.getD "", email := email, cpf := cpf,
              phone := genPhone, paymentMethod := "PIX",
              amount := amount_in_cents,
              itemTitle := "Regulariza Brasil", itemQuantity := 1,
              itemUnitPrice := amount_in_cents, itemTangible := true }

/-- The `errors` collapse of the non-200/non-401 branch
(for4payments.py lines 104-114): `message or error or '; '.join(errors)`
when the body parses as a dict, the default generic message when it parses
as a non-dict, and the status-tagged message when parsing raises. -/
def collapseError (code : ℕ) (body : RespBody) : String :=
  match body with
  | .dict b => pyOrS b.message (pyOrS b.errorField
      (String.intercalate "; " (b.errors.getD [])))
  | .nonDict => "Erro ao processar pagamento"
  | .parseFail => "Erro ao processar pagamento (Status: " ++ toString code ++ ")"

/-- Response handling of `create_pix_payment` (for4payments.py lines 80-125):
200 maps the body to the canonical result (a non-dict or unparsable 200 body
raises inside the outer `try`, which converts it to the generic internal
error), 401 raises the authentication failure, any other status raises the
collapsed vendor error, and a `RequestException` raises the connection error. -/
def handleResponse (resp : HttpOutcome) : Except String CreateResult :=
  match resp with
  | .exn => .error "Erro de conexão com o serviço de pagamento. Tente novamente em alguns instantes."
  | .resp code body =>
    if code = 200 then
      match body with
      | .dict b => .ok {
          id := pyOrOpt b.id b.transactionId,
          pixCode := pyOrOpt b.pixCode (b.pix.bind PixObj.code),
          pixQrCode := pyOrOpt b.pixQrCode (b.pix.bind PixObj.qrCode),
          expiresAt := pyOrOpt b.expiresAt b.expiration,
          status := b.status.getD "pending" }
      | _ => .error "Erro interno ao processar pagamento. Por favor, tente novamente."
    else if code = 401 then
      .error "Falha na autenticação com a API For4Payments. Verifique a chave de API."
    else
      .error (collapseError code body)

/-- `For4PaymentsAPI.create_pix_payment`: validate and build the payload,
then (only when validation passed) issue the outbound call and handle the
response. The second component records whether the HTTP request was issued. -/
def create_pix_payment (secretKey : String) (data : PaymentRequest)
    (genEmail : String) (r : ℕ) (ds : ℕ → ℕ) (resp : HttpOutcome) :
    Except String CreateResult × Bool :=
  match validateAndBuild secretKey data genEmail (generate_random_phone r ds) with
  | .error e => (.error e, false)
  | .ok _ => (handleResponse resp, true)

/-- The fields `check_payment_status` reads from a parsed status response. -/
structure StatusBody where
  status : Option String
  pixQrCode : Option String
  pixCode : Option String
  phone : Option String
  name : Option String
deriving DecidableEq, Repr

/-- Body outcome of the status GET. -/
inductive StatusRespBody where
  | parseFail : StatusRespBody
  | nonDict : StatusRespBody
  | dict : StatusBody → StatusRespBody
deriving DecidableEq, Repr

/-- Outcome of the status-check `requests.get`. -/
inductive StatusHttpOutcome where
  | exn : StatusHttpOutcome
  | resp : ℕ → StatusRespBody → StatusHttpOutcome
deriving DecidableEq, Repr

/-- The dict returned by `check_payment_status`; the 404/error/exception
branches return only the `status` key, modelled by `none` pix fields. -/
structure StatusResult where
  status : String
  pix_qr_code : Option String
  pix_code : Option String
deriving DecidableEq, Repr

/-- `For4PaymentsAPI.check_payment_status` (for4payments.py lines 127-192).
On a 200 dict body the status is passed through with default `'PENDING'`
(the APPROVED-branch SMS attempt is wrapped in its own `try` and cannot
change the return value); a 200 body that fails to parse or is not a dict
raises inside the outer `try`, which returns `'PENDING'`; 404 and every
other status return `'PENDING'`; any exception returns `'PENDING'`.
The function is total: no exception escapes to the caller. -/
def check_payment_status (resp : StatusHttpOutcome) : StatusResult :=
  match resp with
  | .exn => { status := "PENDING", pix_qr_code := none, pix_code := none }
  | .resp code body =>
    if code = 200 then
      match body with
      | .dict b => { status := b.status.getD "PENDING",
                     pix_qr_code := b.pixQrCode, pix_code := b.pixCode }
      | _ => { status := "PENDING", pix_qr_code := none, pix_code := none }
    else
      { status := "PENDING", pix_qr_code := none, pix_code := none }

/-- The ambiguous cases listed for the status check: a 404, any other
non-200 status, a 200 dict body missing the `status` field, or a raised
exception. -/
def ambiguousStatusResp : StatusHttpOutcome → Bool
  | .exn => true
  | .resp code body =>
    if code ≠ 200 then true
    else
      match body with
      | .dict b => b.status = none
      | _ => false

/-- `format_cpf` (app.py lines 72-74): strip non-digits; an 11-digit result
is formatted `XXX.XXX.XXX-XX`, anything else is returned stripped. -/
def format_cpf (cpf : String) : String :=
  let d := cpf.data.filter Char.isDigit
  if d.length = 11 then
    String.mk (d.take 3 ++ ['.'] ++ (d.drop 3).take 3 ++ ['.']
      ++ (d.drop 6).take 3 ++ ['-'] ++ d.drop 9)
  else String.mk d

/-- Accumulator pass for `pyWords`: collect maximal runs of
non-whitespace characters. -/
def wordsAux : List Char → List Char → List (List Char)
  | [], acc => if acc = [] then [] else [acc.reverse]
  | c :: cs, acc =>
    if c.isWhitespace then
      if acc = [] then wordsAux cs [] else acc.reverse :: wordsAux cs []
    else wordsAux cs (c :: acc)

/-- Python `s.split()` with no argument: the maximal whitespace-separated
words of `s` (no empty words). -/
def pyWords (s : String) : List String :=
  (wordsAux s.data []).map String.mk

/-- Outcome of a notification sender's single outbound call. -/
inductive HttpCall where
  | exn : HttpCall
  | resp : ℕ → HttpCall
deriving DecidableEq, Repr

/-- `send_sms` (app.py lines 26-63). Returns the boolean result and whether
the outbound GET was issued. A missing/empty `SMS_API_KEY` returns `False`
without a call; an empty name makes `full_name.split()[0]` raise, which the
enclosing `except` turns into `False`; a stripped phone whose length is not
11 returns `False` without a call; otherwise the GET is issued and the
result is `status_code == 200`, with any exception giving `False`. -/
def send_sms (apiKey : Option String) (phone_number full_name : String)
    (call : HttpCall) : Bool × Bool :=
  if pyFalsy apiKey then (false, false)
  else if pyWords full_name = [] then (false, false)
  else if (digitsOnly phone_number).length = 11 then
    match call with
    | .exn => (false, true)
    | .resp code => (code = 200, true)
  else (false, false)

/-- `make_call4u_call` (app.py lines 97-134). Returns the boolean result and
whether the outbound POST was issued. An empty stripped phone returns
`False` without a call; otherwise the POST is issued and the result is
`status_code == 200` (any non-200 status returns `False`), with any
exception giving `False`. -/
def make_call4u_call (phone_number : String) (call : HttpCall) : Bool × Bool :=
  if digitsOnly phone_number = "" then (false, false)
  else
    match call with
    | .exn => (false, true)
    | .resp code => (code = 200, true)

/-- The query-string arguments the payment routes read;
`request.args.get` yields `none` for an absent parameter. -/
structure Args where
  nome : Option String
  cpf : Option String
  phone : Option String
  source : Option String
deriving DecidableEq, Repr

/-- A route handler's observable outcome: the HTTP status, the customer
bundle passed to `create_pix_payment` (`none` when the gateway was never
called), and whether the body is a JSON error object. -/
structure RouteResult where
  httpStatus : ℕ
  gatewayData : Option PaymentRequest
  isErrorBody : Bool
deriving DecidableEq, Repr

/-- The `payment_data` bundle built by the `/payment` handler
(app.py lines 173-188): digits-only CPF, generated email, the phone from
the query string passed through, and the source-dependent amount. -/
def payment_pd (args : Args) (genEmail : String) : PaymentRequest :=
  { name := some (args.nome.getD ""),
    email := some genEmail,
    cpf := some (digitsOnly (args.cpf.getD "")),
    phone := args.phone,
    amount := some (if args.source.getD "index" = "index"
                    then (14283 : ℚ)/100 else (1218 : ℚ)/10) }

/-- The `/payment` route handler (app.py lines 152-222). Missing or empty
`nome`/`cpf` returns 400 before the gateway is touched; a gateway
`ValueError` is caught and returned as a 500 JSON error; on success the
SMS and call4u senders run (when a phone was supplied) but their results
are only logged, and the page renders with status 200. -/
def payment_route (args : Args) (genEmail : String) (smsKey : Option String)
    (gw : PaymentRequest → Except String CreateResult)
    (smsCall voiceCall : HttpCall) : RouteResult :=
  if pyFalsy args.nome || pyFalsy args.cpf then
    { httpStatus := 400, gatewayData := none, isErrorBody := true }
  else
    let pd := payment_pd args genEmail
    match gw pd with
    | .error _ => { httpStatus := 500, gatewayData := some pd, isErrorBody := true }
    | .ok _ =>
      let _sms_result :=
        if pyFalsy args.phone then none
        else some (send_sms smsKey (args.phone.getD "") (args.nome.getD "") smsCall)
      let _call_result :=
        if pyFalsy args.phone then none
        else some (make_call4u_call (args.phone.getD "") voiceCall)
      { httpStatus := 200, gatewayData := some pd, isErrorBody := false }

/-- The `payment_data` bundle built by the `/payment-update` handler
(app.py lines 242-258): digits-only CPF, generated email, generated phone,
fixed amount 121.80. -/
def payment_update_pd (args : Args) (genEmail genPhone : String) : PaymentRequest :=
  { name := some (args.nome.getD ""),
    email := some genEmail,
    cpf := some (digitsOnly (args.cpf.getD "")),
    phone := some genPhone,
    amount := some ((1218 : ℚ)/10) }

/-- The `/payment-update` route handler (app.py lines 224-279). Missing or
empty `nome`/`cpf` returns 400 before the gateway is touched; a gateway
`ValueError` becomes a 500 JSON error; success renders with status 200. -/
def payment_update_route (args : Args) (genEmail genPhone : String)
    (gw : PaymentRequest → Except String CreateResult) : RouteResult :=
  if pyFalsy args.nome || pyFalsy args.cpf then
    { httpStatus := 400, gatewayData := none, isErrorBody := true }
  else
    let pd := payment_update_pd args genEmail genPhone
    match gw pd with
    | .error _ => { httpStatus := 500, gatewayData := some pd, isErrorBody := true }
    | .ok _ => { httpStatus := 200, gatewayData := some pd, isErrorBody := false }

/-! ## Helper lemmas -/

/-- Truncation of an exact integer is that integer. -/
lemma pyInt_intCast (n : ℤ) : pyInt (n : ℚ) = n := by
  simp [pyInt]

/-- Rounding of an exact integer is that integer. -/
lemma pyRound_intCast (n : ℤ) : pyRound (n : ℚ) = n := by
  simp only [pyRound, Int.floor_intCast, sub_self]
  norm_num

/-! ## Claims -/

/-- C6: an input whose digits, after stripping non-digits, are exactly
d1..d11 is formatted by `format_cpf` as d1d2d3.d4d5d6.d7d8d9-d10d11. -/
theorem format_cpf_eleven_digits (s : String)
    (d1 d2 d3 d4 d5 d6 d7 d8 d9 d10 d11 : Char)
    (h : s.data.filter Char.isDigit = [d1, d2, d3, d4, d5, d6, d7, d8, d9, d10, d11]) :
    format_cpf s =
      String.mk [d1, d2, d3, '.', d4, d5, d6, '.', d7, d8, d9, '-', d10, d11] := by
  simp [format_cpf, h]

theorem format_cpf_eleven_digits_witness :
    format_cpf "529.982.247-25" = "529.982.247-25" :=
  format_cpf_eleven_digits "529.982.247-25"
    '5' '2' '9' '9' '8' '2' '2' '4' '7' '2' '5' (by decide)

/-- C3: for every gateway outcome in the ambiguous cases (404, any other
non-200 status, a 200 dict body missing the `status` field, or a raised
exception), `check_payment_status` reports status `PENDING`; the function
is total, so no exception reaches the caller. -/
theorem check_status_pending_on_ambiguity (resp : StatusHttpOutcome)
    (h : ambiguousStatusResp resp = true) :
    (check_payment_status resp).status = "PENDING" := by
  cases resp with
  | exn => rfl
  | resp code body =>
    by_cases hc : code = 200
    · subst hc
      cases body with
      | parseFail => rfl
      | nonDict => rfl
      | dict b =>
        simp [ambiguousStatusResp] at h
        simp [check_payment_status, h]
    · simp [check_payment_status, hc]

theorem check_status_pending_on_ambiguity_witness :
    (check_payment_status (.resp 404 .parseFail)).status = "PENDING" :=
  check_status_pending_on_ambiguity (.resp 404 .parseFail) (by decide)

/-- C7: on a 200 response with a dict body, the canonical result's `id`
is the top-level `id` with fallback to `transactionId`, `pixCode` is the
top-level `pixCode` with fallback to the nested `pix.code`, and `pixQrCode`
is the top-level `pixQrCode` with fallback to the nested `pix.qrCode`
(a falsy top-level field — absent or empty — falls through). -/
theorem create_result_field_fallbacks (b : PurchaseBody) (r : CreateResult)
    (h : handleResponse (.resp 200 (.dict b)) = .ok r) :
    (pyFalsy b.id = false → r.id = b.id) ∧
    (pyFalsy b.id = true → r.id = b.transactionId) ∧
    (pyFalsy b.pixCode = false → r.pixCode = b.pixCode) ∧
    (pyFalsy b.pixCode = true → r.pixCode = b.pix.bind PixObj.code) ∧
    (pyFalsy b.pixQrCode = false → r.pixQrCode = b.pixQrCode) ∧
    (pyFalsy b.pixQrCode = true → r.pixQrCode = b.pix.bind PixObj.qrCode) := by
  simp only [handleResponse, if_pos, Except.ok.injEq, reduceIte] at h
  subst h
  refine ⟨?_, ?_, ?_, ?_, ?_, ?_⟩ <;>
    · intro hf
      cases hid : b.id <;> cases hpc : b.pixCode <;> cases hqc : b.pixQrCode <;>
        simp_all [pyOrOpt, pyFalsy]

def purchaseBodyW : PurchaseBody :=
  { id := none, transactionId := some "tx-1",
    pixCode := some "", pixQrCode := some "qr-data",
    pix := some { code := some "copy-paste", qrCode := some "nested-qr" },
    expiresAt := none, expiration := none, status := some "PENDING",
    message := none, errorField := none, errors := none }

def createResultW : CreateResult :=
  { id := some "tx-1", pixCode := some "copy-paste",
    pixQrCode := some "qr-data", expiresAt := none, status := "PENDING" }

theorem create_result_field_fallbacks_witness :
    createResultW.id = purchaseBodyW.transactionId ∧
    createResultW.pixCode = purchaseBodyW.pix.bind PixObj.code ∧
    createResultW.pixQrCode = purchaseBodyW.pixQrCode := by
  have h := create_result_field_fallbacks purchaseBodyW createResultW rfl
  exact ⟨h.2.1 (by decide), h.2.2.2.1 (by decide), h.2.2.2.2.1 (by decide)⟩

/-- C4: every non-2xx response to the transaction-create call raises a
`ValueError`; a 401 carries the distinct authentication-failure message,
and any other non-2xx status carries the single message obtained by
collapsing the vendor's `message`/`error`/`errors` fields (structured
error arrays joined with `; `). -/
theorem create_error_on_non_2xx (code : ℕ) (body : RespBody)
    (h : code < 200 ∨ 300 ≤ code) :
    (handleResponse (.resp code body)).isOk = false ∧
    (code = 401 → handleResponse (.resp code body) =
      .error "Falha na autenticação com a API For4Payments. Verifique a chave de API.") ∧
    (code ≠ 401 → handleResponse (.resp code body) = .error (collapseError code body)) := by
  have h200 : code ≠ 200 := by omega
  by_cases h401 : code = 401 <;>
    simp [handleResponse, h200, h401, Except.isOk, Except.toBool]

def errorBodyW : RespBody :=
  .dict { id := none, transactionId := none, pixCode := none,
          pixQrCode := none, pix := none, expiresAt := none,
          expiration := none, status := none, message := none,
          errorField := none,
          errors := some ["cpf invalido", "amount invalido"] }

theorem create_error_on_non_2xx_witness :
    handleResponse (.resp 500 errorBodyW) =
      .error "cpf invalido; amount invalido" :=
  (create_error_on_non_2xx 500 errorBodyW (by decide)).2.2 (by decide)

/-- C9: with valid `nome`/`cpf`, the `/payment` route charges exactly
142.83 when the `source` parameter is absent or equal to `index`, and
exactly 121.80 for any other value; the `/payment-update` route always
charges exactly 121.80. -/
theorem route_amounts (args : Args) (genEmail genPhone : String)
    (smsKey : Option String) (gw : PaymentRequest → Except String CreateResult)
    (smsCall voiceCall : HttpCall)
    (hn : pyFalsy args.nome = false) (hc : pyFalsy args.cpf = false) :
    (args.source.getD "index" = "index" →
      ((payment_route args genEmail smsKey gw smsCall voiceCall).gatewayData.bind
        PaymentRequest.amount) = some ((14283 : ℚ)/100)) ∧
    (args.source.getD "index" ≠ "index" →
      ((payment_route args genEmail smsKey gw smsCall voiceCall).gatewayData.bind
        PaymentRequest.amount) = some ((1218 : ℚ)/10)) ∧
    ((payment_update_route args genEmail genPhone gw).gatewayData.bind
        PaymentRequest.amount) = some ((1218 : ℚ)/10) := by
  refine ⟨?_, ?_, ?_⟩
  · intro hs
    cases hg : gw (payment_pd args genEmail) <;>
      · simp [payment_route, hn, hc, hg]
        simp [payment_pd, hs]
  · intro hs
    cases hg : gw (payment_pd args genEmail) <;>
      · simp [payment_route, hn, hc, hg]
        simp [payment_pd, hs]
  · cases hg : gw (payment_update_pd args genEmail genPhone) <;>
      · simp [payment_update_route, hn, hc, hg]
        simp [payment_update_pd]

def argsIndexW : Args :=
  { nome := some "Ana Silva", cpf := some "529.982.247-25",
    phone := none, source := none }

def gwOkW : PaymentRequest → Except String CreateResult :=
  fun _ => .ok createResultW

theorem route_amounts_witness :
    ((payment_route argsIndexW "g@x.com" none gwOkW .exn .exn).gatewayData.bind
      PaymentRequest.amount) = some ((14283 : ℚ)/100) ∧
    ((payment_update_route argsIndexW "g@x.com" "11900000000" gwOkW).gatewayData.bind
      PaymentRequest.amount) = some ((1218 : ℚ)/10) := by
  have h := route_amounts argsIndexW "g@x.com" "11900000000" none gwOkW .exn .exn
    (by decide) (by decide)
  exact ⟨h.1 rfl, h.2.2⟩

/-- C5: for both `/payment` and `/payment-update`, a missing or empty
`nome` or `cpf` query parameter yields HTTP 400 with a JSON error body
and the payment gateway is never called (`gatewayData = none`); with
valid parameters, a gateway failure is converted to a generic JSON error
with HTTP 500. -/
theorem route_error_handling (args : Args) (genEmail genPhone : String)
    (smsKey : Option String) (gw : PaymentRequest → Except String CreateResult)
    (smsCall voiceCall : HttpCall) :
    ((pyFalsy args.nome || pyFalsy args.cpf) = true →
      payment_route args genEmail smsKey gw smsCall voiceCall =
        { httpStatus := 400, gatewayData := none, isErrorBody := true } ∧
      payment_update_route args genEmail genPhone gw =
        { httpStatus := 400, gatewayData := none, isErrorBody := true }) ∧
    ((pyFalsy args.nome || pyFalsy args.cpf) = false →
      (gw (payment_pd args genEmail)).isOk = false →
      (payment_route args genEmail smsKey gw smsCall voiceCall).httpStatus = 500 ∧
      (payment_route args genEmail smsKey gw smsCall voiceCall).isErrorBody = true) ∧
    ((pyFalsy args.nome || pyFalsy args.cpf) = false →
      (gw (payment_update_pd args genEmail genPhone)).isOk = false →
      (payment_update_route args genEmail genPhone gw).httpStatus = 500 ∧
      (payment_update_route args genEmail genPhone gw).isErrorBody = true) := by
  refine ⟨?_, ?_, ?_⟩
  · intro hmiss
    constructor <;> simp [payment_route, payment_update_route, hmiss]
  · intro hok hgw
    cases hg : gw (payment_pd args genEmail) with
    | error e => simp [payment_route, hok, hg]
    | ok v => simp [hg, Except.isOk, Except.toBool] at hgw
  · intro hok hgw
    cases hg : gw (payment_update_pd args genEmail genPhone) with
    | error e => simp [payment_update_route, hok, hg]
    | ok v => simp [hg, Except.isOk, Except.toBool] at hgw

def argsNoNomeW : Args :=
  { nome := none, cpf := some "529.982.247-25", phone := none, source := none }

def gwErrW : PaymentRequest → Except String CreateResult :=
  fun _ => .error "Falha na autenticação com a API For4Payments. Verifique a chave de API."

theorem route_error_handling_witness :
    payment_route argsNoNomeW "g@x.com" none gwOkW .exn .exn =
      { httpStatus := 400, gatewayData := none, isErrorBody := true } ∧
    (payment_route argsIndexW "g@x.com" none gwErrW .exn .exn).httpStatus = 500 := by
  refine ⟨((route_error_handling argsNoNomeW "g@x.com" "11900000000" none gwOkW
    .exn .exn).1 (by decide)).1, ?_⟩
  exact ((route_error_handling argsIndexW "g@x.com" "11900000000" none gwErrW
    .exn .exn).2.1 (by decide) rfl).1

/-- C8: the notification senders return a boolean and never raise (they
are total functions); whenever the outbound call is actually made and a
response arrives, the result is `true` exactly when the status code is
200; an exception inside a sender yields `false`; and the payment
handler's response is unchanged by whatever the senders' calls do. -/
theorem senders_boolean_and_isolated (apiKey : Option String)
    (phone fullName : String) (code : ℕ) (args : Args) (genEmail : String)
    (smsKey : Option String) (gw : PaymentRequest → Except String CreateResult)
    (smsCall voiceCall smsCall' voiceCall' : HttpCall) :
    ((send_sms apiKey phone fullName (.resp code)).2 = true →
      ((send_sms apiKey phone fullName (.resp code)).1 = true ↔ code = 200)) ∧
    (send_sms apiKey phone fullName .exn).1 = false ∧
    ((make_call4u_call phone (.resp code)).2 = true →
      ((make_call4u_call phone (.resp code)).1 = true ↔ code = 200)) ∧
    (make_call4u_call phone .exn).1 = false ∧
    payment_route args genEmail smsKey gw smsCall voiceCall =
      payment_route args genEmail smsKey gw smsCall' voiceCall' := by
  refine ⟨?_, ?_, ?_, ?_, rfl⟩
  · intro hmade
    by_cases hk : pyFalsy apiKey = true <;>
      by_cases hw : pyWords fullName = [] <;>
      by_cases hp : (digitsOnly phone).length = 11 <;>
      simp_all [send_sms]
  · by_cases hk : pyFalsy apiKey = true <;>
      by_cases hw : pyWords fullName = [] <;>
      by_cases hp : (digitsOnly phone).length = 11 <;>
      simp_all [send_sms]
  · intro hmade
    by_cases hp : digitsOnly phone = "" <;> simp_all [make_call4u_call]
  · by_cases hp : digitsOnly phone = "" <;> simp_all [make_call4u_call]

theorem senders_boolean_and_isolated_witness :
    (send_sms (some "sms-key") "11987654321" "Ana Silva" (.resp 200)).1 = true ∧
    (make_call4u_call "11987654321" (.resp 503)).1 = false := by
  have h := senders_boolean_and_isolated (some "sms-key") "11987654321"
    "Ana Silva" 200 argsIndexW "g@x.com" none gwOkW .exn .exn .exn .exn
  have h2 := senders_boolean_and_isolated (some "sms-key") "11987654321"
    "Ana Silva" 503 argsIndexW "g@x.com" none gwOkW .exn .exn .exn .exn
  refine ⟨(h.1 (by decide)).mpr rfl, ?_⟩
  by_contra hb
  exact absurd ((h2.2.2.1 (by decide)).mp (by simpa using hb)) (by decide)

/-- C10: `create_pix_payment` validates before any outbound call: an
invalid secret key (empty or shorter than 10 characters), a missing or
falsy required field (`name`, `email`, `cpf`, `amount`), a digit-stripped
CPF whose length is not 11, or a non-positive amount in cents each raise
a `ValueError` and the HTTP request is never issued. -/
theorem create_validates_before_call (secretKey : String)
    (data : PaymentRequest) (genEmail : String) (r : ℕ) (ds : ℕ → ℕ)
    (resp : HttpOutcome)
    (h : secretKey = "" ∨ secretKey.length < 10 ∨
         pyFalsy data.name = true ∨ pyFalsy data.email = true ∨
         pyFalsy data.cpf = true ∨ pyFalsyQ data.amount = true ∨
         (digitsOnly (data.cpf.getD "")).length ≠ 11 ∨
         pyInt (data.amount.getD 0 * 100) ≤ 0) :
    (create_pix_payment secretKey data genEmail r ds resp).2 = false ∧
    (create_pix_payment secretKey data genEmail r ds resp).1.isOk = false := by
  have hv : ∀ genPhone, (validateAndBuild secretKey data genEmail genPhone).isOk = false := by
    intro genPhone
    simp only [validateAndBuild]
    rcases h with h | h | h | h | h | h | h | h <;>
      split_ifs <;>
      simp_all [Except.isOk, Except.toBool]
  have hv2 := hv (generate_random_phone r ds)
  unfold create_pix_payment
  cases hveq : validateAndBuild secretKey data genEmail (generate_random_phone r ds) with
  | error e => simp [Except.isOk, Except.toBool]
  | ok p => rw [hveq] at hv2; simp [Except.isOk, Except.toBool] at hv2

def reqValidW : PaymentRequest :=
  { name := some "Ana Silva", email := some "ana@example.com",
    cpf := some "529.982.247-25", phone := none,
    amount := some (mkRat 14283 100) }

theorem create_validates_before_call_witness :
    (create_pix_payment "short" reqValidW "g@x.com" 0 (fun _ => 0)
      (.resp 200 errorBodyW)).2 = false ∧
    (create_pix_payment "short" reqValidW "g@x.com" 0 (fun _ => 0)
      (.resp 200 errorBodyW)).1.isOk = false :=
  create_validates_before_call "short" reqValidW "g@x.com" 0 (fun _ => 0)
    (.resp 200 errorBodyW) (Or.inr (Or.inl (by decide)))

def reqBadAmountW : PaymentRequest :=
  { name := some "Ana Silva", email := some "ana@example.com",
    cpf := some "529.982.247-25", phone := none,
    amount := some (mkRat 1006 1000) }

/-- C1 counterexample: on the valid request with amount 1.006 (all fields
present, CPF stripping to 11 digits, positive amount in cents) the payload
amount is `int(1.006 * 100) = 100`, while `round(1.006 * 100) = 101`:
the code truncates, it does not round. -/
theorem payload_amount_rounding_cex :
    ((validateAndBuild "sk_0123456789" reqBadAmountW "g@x.com"
        "11900000000").toOption.map PaymentPayload.amount) = some 100 ∧
    pyRound (reqBadAmountW.amount.getD 0 * 100) = 101 := by
  have h1 : pyInt (reqBadAmountW.amount.getD 0 * 100) = 100 := by
    norm_num [reqBadAmountW, pyInt, Rat.mkRat_eq_divInt, Rat.divInt_eq_div]
  have h2 : pyRound (reqBadAmountW.amount.getD 0 * 100) = 101 := by
    norm_num [reqBadAmountW, pyRound, Rat.mkRat_eq_divInt, Rat.divInt_eq_div]
  refine ⟨?_, h2⟩
  simp only [validateAndBuild, h1]
  rfl

/-- C1 (amended): for every request accepted by the validation of
`create_pix_payment`, the payload's `amount` and item `unitPrice` both
equal the truncation toward zero of `amount * 100` (Python
`int(amount * 100)`); when `amount * 100` has no fractional part — as for
the application's fixed amounts 142.83 and 121.80 — this coincides with
`round(amount * 100)`. -/
theorem payload_amount_truncated (secretKey genEmail genPhone : String)
    (data : PaymentRequest) (p : PaymentPayload)
    (h : validateAndBuild secretKey data genEmail genPhone = .ok p) :
    p.amount = pyInt (data.amount.getD 0 * 100) ∧
    p.itemUnitPrice = pyInt (data.amount.getD 0 * 100) ∧
    ((data.amount.getD 0 * 100).den = 1 →
      p.amount = pyRound (data.amount.getD 0 * 100)) := by
  simp only [validateAndBuild] at h
  split_ifs at h
  rw [Except.ok.injEq] at h
  subst h
  refine ⟨rfl, rfl, ?_⟩
  intro hden
  have hint : ((data.amount.getD 0 * 100).num : ℚ) = data.amount.getD 0 * 100 :=
    (Rat.den_eq_one_iff _).mp hden
  show pyInt (data.amount.getD 0 * 100) = pyRound (data.amount.getD 0 * 100)
  calc pyInt (data.amount.getD 0 * 100)
      = pyInt (((data.amount.getD 0 * 100).num : ℚ)) := by rw [hint]
    _ = (data.amount.getD 0 * 100).num := pyInt_intCast _
    _ = pyRound (((data.amount.getD 0 * 100).num : ℚ)) := (pyRound_intCast _).symm
    _ = pyRound (data.amount.getD 0 * 100) := by rw [hint]

def payloadIndexW : PaymentPayload :=
  { name := "Ana Silva", email := "ana@example.com", cpf := "52998224725",
    phone := "11900000000", paymentMethod := "PIX", amount := 14283,
    itemTitle := "Regulariza Brasil", itemQuantity := 1,
    itemUnitPrice := 14283, itemTangible := true }

theorem payload_amount_truncated_witness :
    payloadIndexW.amount = pyInt (reqValidW.amount.getD 0 * 100) ∧
    payloadIndexW.itemUnitPrice = pyInt (reqValidW.amount.getD 0 * 100) ∧
    payloadIndexW.amount = pyRound (reqValidW.amount.getD 0 * 100) := by
  have hval : validateAndBuild "sk_0123456789" reqValidW "g@x.com"
      "11900000000" = .ok payloadIndexW := by
    have h1 : pyInt (reqValidW.amount.getD 0 * 100) = 14283 := by
      norm_num [reqValidW, pyInt, Rat.mkRat_eq_divInt, Rat.divInt_eq_div]
    simp only [validateAndBuild, h1]
    rfl
  have hden : (reqValidW.amount.getD 0 * 100).den = 1 := by
    norm_num [reqValidW, Rat.mkRat_eq_divInt, Rat.divInt_eq_div]
  have h := payload_amount_truncated "sk_0123456789" "g@x.com" "11900000000"
    reqValidW payloadIndexW hval
  exact ⟨h.1, h.2.1, h.2.2 hden⟩

def reqWithPhoneW : PaymentRequest :=
  { name := some "Ana Silva", email := some "ana@example.com",
    cpf := some "52998224725", phone := some "5511987654321",
    amount := some (mkRat 14283 100) }

/-- C2 counterexample: the customer bundle supplies the non-empty phone
"5511987654321", yet the payload built by `create_pix_payment` carries the
synthesized random phone (here "1100000000", from seed 0): the supplied
phone is never used. -/
theorem payload_phone_ignored_cex :
    ((validateAndBuild "sk_0123456789" reqWithPhoneW "g@x.com"
        (generate_random_phone 0 (fun _ => 0))).toOption.map
      PaymentPayload.phone) = some "1100000000" ∧
    reqWithPhoneW.phone = some "5511987654321" ∧
    ("1100000000" : String) ≠ "5511987654321" := by
  have h1 : pyInt (reqWithPhoneW.amount.getD 0 * 100) = 14283 := by
    norm_num [reqWithPhoneW, pyInt, Rat.mkRat_eq_divInt, Rat.divInt_eq_div]
  refine ⟨?_, rfl, by decide⟩
  simp only [validateAndBuild, h1]
  rfl

/-- C2 (amended): for every request accepted by the validation of
`create_pix_payment`, the payload email equals the supplied email whenever
it contains '@' (an absent or empty email fails the required-field
validation, and a non-empty email without '@' is replaced by the
synthesized one); the payload phone is always the synthesized random
phone — a supplied phone is ignored. -/
theorem payload_email_kept_phone_synth (secretKey genEmail genPhone : String)
    (data : PaymentRequest) (p : PaymentPayload)
    (h : validateAndBuild secretKey data genEmail genPhone = .ok p) :
    p.phone = genPhone ∧
    (containsAt (data.email.getD "") = true → p.email = data.email.getD "") ∧
    (containsAt (data.email.getD "") = false → p.email = genEmail) := by
  simp only [validateAndBuild] at h
  split_ifs at h with h1 h2 h3 h4 h5 h6 h7
  rw [Except.ok.injEq] at h
  subst h
  refine ⟨rfl, ?_, ?_⟩ <;>
  · intro hat
    cases hde : data.email with
    | none => simp [pyFalsy, hde] at h3
    | some e =>
      have he : e ≠ "" := by simpa [pyFalsy, hde] using h3
      simp [hde] at hat ⊢
      simp [hat, he]

def reqNoAtW : PaymentRequest :=
  { name := some "Ana Silva", email := some "invalid-email",
    cpf := some "52998224725", phone := none,
    amount := some (mkRat 14283 100) }

def payloadNoAtW : PaymentPayload :=
  { name := "Ana Silva", email := "g@x.com", cpf := "52998224725",
    phone := "11900000000", paymentMethod := "PIX", amount := 14283,
    itemTitle := "Regulariza Brasil", itemQuantity := 1,
    itemUnitPrice := 14283, itemTangible := true }

theorem payload_email_kept_phone_synth_witness :
    payloadIndexW.phone = "11900000000" ∧
    payloadIndexW.email = reqValidW.email.getD "" ∧
    payloadNoAtW.email = "g@x.com" := by
  have h1 : pyInt (reqValidW.amount.getD 0 * 100) = 14283 := by
    norm_num [reqValidW, pyInt, Rat.mkRat_eq_divInt, Rat.divInt_eq_div]
  have h2 : pyInt (reqNoAtW.amount.getD 0 * 100) = 14283 := by
    norm_num [reqNoAtW, pyInt, Rat.mkRat_eq_divInt, Rat.divInt_eq_div]
  have hval1 : validateAndBuild "sk_0123456789" reqValidW "g@x.com"
      "11900000000" = .ok payloadIndexW := by
    simp only [validateAndBuild, h1]
    rfl
  have hval2 : validateAndBuild "sk_0123456789" reqNoAtW "g@x.com"
      "11900000000" = .ok payloadNoAtW := by
    simp only [validateAndBuild, h2]
    rfl
  have ha := payload_email_kept_phone_synth "sk_0123456789" "g@x.com"
    "11900000000" reqValidW payloadIndexW hval1
  have hb := payload_email_kept_phone_synth "sk_0123456789" "g@x.com"
    "11900000000" reqNoAtW payloadNoAtW hval2
  exact ⟨ha.1, ha.2.1 (by decide), hb.2.2 (by decide)⟩
